import Mathlib

/-!
Verification of the BabelDOC MCP server orchestration layer.

Shallow embedding of `src/babeldoc/mcp_server/server.py` (the tool-call
orchestration layer of the BabelDOC MCP server) in Lean 4, together with
theorems settling the frozen claims about it.

Modelling conventions:

* Paths are strings; the `pathlib.PurePosixPath` operations used by the code
  (`parent`, `name`, `suffix`, `str(...)`) are embedded as pure string
  functions (`pathParent`, `pathName`, `pathSuffix`, `pathStr`).
* The filesystem is an oracle `FS` supplying the two read-only primitives the
  code uses: existence checks and directory listings.
* Unicode normalization (`unicodedata.normalize("NFC"/"NFD", -)`) is an
  external library; it is abstracted as two function parameters `nfc nfd`.
* The process environment is a record `Env` of the six variables the code
  reads; `os.environ.get` with a default becomes `Option.getD`.
* Python truthiness on optional strings (`if not api_key`, `x or y`) is
  embedded by `truthyS` / `orFalsy`.
* The external translation engine (`babeldoc.format.pdf.high_level`, the
  translator, the layout model, and the filesystem mkdir) is an oracle
  `Engine`: each externally-performed step either succeeds or raises an
  exception message, and the event stream is a finite list of `PEvent`s.
  `translate_pdf` returns the result text together with a trace of the
  external effects it attempted, in order.
-/

/-- Split a character list on `/` (the groups between separators, in order;
auxiliary for `pathParts`). -/
def splitSlash : List Char → List (List Char)
  | [] => [[]]
  | c :: rest =>
    let r := splitSlash rest
    if c == '/' then [] :: r
    else
      match r with
      | [] => [[c]]
      | g :: gs => (c :: g) :: gs

/-- Components of a POSIX path as `pathlib` parses it: split on `/`, dropping
empty components and `.` components (`..` is kept). -/
def pathParts (s : String) : List String :=
  ((splitSlash s.data).map String.mk).filter (fun c => c != "" && c != ".")

/-- Whether the path is absolute (`pathlib`: leading slash). -/
def pathIsAbs (s : String) : Bool :=
  match s.data with
  | [] => false
  | c :: _ => c == '/'

/-- `str(Path(s))`: the normalized string form of a path. -/
def pathStr (s : String) : String :=
  let ps := pathParts s
  if pathIsAbs s then "/" ++ String.intercalate "/" ps
  else if ps.isEmpty then "." else String.intercalate "/" ps

/-- `Path(s).name`: the final path component (empty for a root or empty path). -/
def pathName (s : String) : String :=
  (pathParts s).getLast?.getD ""

/-- `str(Path(s).parent)`: drop the final component; `.` for a bare name,
`/` for the root. -/
def pathParent (s : String) : String :=
  let ps := pathParts s
  match ps with
  | [] => if pathIsAbs s then "/" else "."
  | _ =>
    let q := ps.dropLast
    if pathIsAbs s then "/" ++ String.intercalate "/" q
    else if q.isEmpty then "." else String.intercalate "/" q

/-- Index of the last occurrence of `c` in `cs` (auxiliary). -/
def lastIdxOfAux (c : Char) : List Char → Nat → Option Nat → Option Nat
  | [], _, acc => acc
  | x :: rest, i, acc =>
      lastIdxOfAux c rest (i + 1) (if x == c then some i else acc)

/-- Index of the last occurrence of `c` in `cs` (Python `str.rfind`). -/
def lastIdxOf (cs : List Char) (c : Char) : Option Nat :=
  lastIdxOfAux c cs 0 none

/-- `Path(s).suffix`: the extension of the final component, including the dot;
empty when the name has no dot, starts with its only dot, or ends with a dot
(mirrors `pathlib`: `name[i:]` for `i = name.rfind(".")` when
`0 < i < len(name) - 1`). -/
def pathSuffix (s : String) : String :=
  let n := pathName s
  let cs := n.data
  match lastIdxOf cs '.' with
  | none => ""
  | some i => if 0 < i ∧ i < cs.length - 1 then String.mk (cs.drop i) else ""

/-- Python `str.lower`, restricted to the ASCII case mapping (the only part
relevant to the `".pdf"` comparison in the code). -/
def pyLower (s : String) : String := String.mk (s.data.map Char.toLower)

/-- Read-only filesystem oracle: the two primitives the resolver uses
(`Path.exists` and `Path.iterdir`; `children d` lists the paths of the direct
children of directory `d`). -/
structure FS where
  pexists : String → Bool
  children : String → List String

/-- The candidate-matching loop of `resolve_path_with_unicode_normalization`
(lines 74-80 of `server.py`): for each child of the parent directory,
normalize its name to both forms and return the first child where either the
same-form or the cross-form comparison matches. -/
def findMatch (nfc nfd : String → String) (tn_nfc tn_nfd : String) :
    List String → Option String
  | [] => none
  | item :: rest =>
    let infc := nfc (pathName item)
    let infd := nfd (pathName item)
    if infc == tn_nfc || infd == tn_nfd then some item
    else if infc == tn_nfd || infd == tn_nfc then some item
    else findMatch nfc nfd tn_nfc tn_nfd rest

/-- `resolve_path_with_unicode_normalization` (`server.py:48-82`): try the
path as given, then its NFC form, then its NFD form; else, if the parent
directory exists, scan its children for a four-way NFC/NFD name match;
otherwise `none`. -/
def resolve_path_with_unicode_normalization (fs : FS) (nfc nfd : String → String)
    (file_path : String) : Option String :=
  if fs.pexists file_path then some file_path
  else
    let nfc_path := nfc file_path
    if fs.pexists nfc_path then some nfc_path
    else
      let nfd_path := nfd file_path
      if fs.pexists nfd_path then some nfd_path
      else
        let parent := pathParent file_path
        if fs.pexists parent then
          findMatch nfc nfd (nfc (pathName file_path)) (nfd (pathName file_path))
            (fs.children parent)
        else none

/-- Modelled from the spec (§4.1, for comparison with the source definition):
the ordered, first-match-wins resolution algorithm, with step 4 phrased as the
spec phrases it -- the first child where any of the four NFC/NFD
cross-combinations match. -/
def resolve_spec (fs : FS) (nfc nfd : String → String) (file_path : String) :
    Option String :=
  if fs.pexists file_path then some file_path
  else if fs.pexists (nfc file_path) then some (nfc file_path)
  else if fs.pexists (nfd file_path) then some (nfd file_path)
  else if fs.pexists (pathParent file_path) then
    (fs.children (pathParent file_path)).find? (fun item =>
      let infc := nfc (pathName item)
      let infd := nfd (pathName item)
      infc == nfc (pathName file_path) || infd == nfd (pathName file_path) ||
      infc == nfd (pathName file_path) || infd == nfc (pathName file_path))
  else none

/-- The six environment variables the server reads (`server.py:85-98`); each
is absent (`none`) or set to a string (possibly empty). -/
structure Env where
  OPENROUTER_API_KEY : Option String := none
  OPENROUTER_BASE_URL : Option String := none
  OPENROUTER_MODEL : Option String := none
  OPENAI_API_KEY : Option String := none
  OPENAI_BASE_URL : Option String := none
  OPENAI_MODEL : Option String := none
deriving DecidableEq, Repr

/-- The dictionary built by `get_env_config` (`server.py:85-98`). -/
structure EnvConfig where
  openrouter_api_key : Option String
  openrouter_base_url : String
  openrouter_model : String
  openai_api_key : Option String
  openai_base_url : Option String
  openai_model : String
deriving DecidableEq, Repr

/-- `get_env_config` (`server.py:85-98`): `os.environ.get` with the hardcoded
defaults for base URL and model of each provider. -/
def get_env_config (env : Env) : EnvConfig :=
  { openrouter_api_key := env.OPENROUTER_API_KEY
  , openrouter_base_url := env.OPENROUTER_BASE_URL.getD "https://openrouter.ai/api/v1"
  , openrouter_model := env.OPENROUTER_MODEL.getD "google/gemini-2.5-flash"
  , openai_api_key := env.OPENAI_API_KEY
  , openai_base_url := env.OPENAI_BASE_URL
  , openai_model := env.OPENAI_MODEL.getD "gpt-4o-mini" }

/-- The typed argument bag of the `translate_pdf` tool: each declared argument
is either absent from the bag (`none`) or present with a value of its declared
type. -/
structure Arguments where
  input_file : Option String := none
  output_dir : Option String := none
  lang_in : Option String := none
  lang_out : Option String := none
  pages : Option String := none
  no_dual : Option Bool := none
  no_mono : Option Bool := none
  service : Option String := none
  model : Option String := none
  qps : Option Int := none
  watermark : Option Bool := none
deriving DecidableEq, Repr

/-- Python truthiness of an optional string (`if not x` / `bool(x)`):
truthy iff present and non-empty. -/
def truthyS : Option String → Bool
  | none => false
  | some s => s != ""

/-- Python `x or d` for an optional string `x`: the default wins whenever `x`
is absent or empty (falsy). -/
def orFalsy (x : Option String) (d : String) : String :=
  match x with
  | none => d
  | some s => if s = "" then d else s

/-- The per-provider service configuration assembled by the
`if service == ...` chain (`server.py:264-299`): API key, model and base URL
actually handed to the translator. -/
structure SvcConfig where
  api_key : String
  model : String
  base_url : Option String
deriving DecidableEq, Repr

/-- The provider-selection and credential-check section of `translate_pdf`
(`server.py:252-299`): pick the provider named by `service` (default
`openrouter`), fail if its API key is unset or empty, resolve the model as
argument-or-environment-or-default, and reject unknown service names. -/
def resolveService (arguments : Arguments) (env : Env) : Except String SvcConfig :=
  let config := get_env_config env
  let service := arguments.service.getD "openrouter"
  if service = "openrouter" then
    if truthyS config.openrouter_api_key then
      Except.ok
        { api_key := config.openrouter_api_key.getD ""
        , model := orFalsy arguments.model config.openrouter_model
        , base_url := some config.openrouter_base_url }
    else Except.error "Error: OPENROUTER_API_KEY environment variable not set"
  else if service = "openai" then
    if truthyS config.openai_api_key then
      Except.ok
        { api_key := config.openai_api_key.getD ""
        , model := orFalsy arguments.model config.openai_model
        , base_url := config.openai_base_url }
    else Except.error "Error: OPENAI_API_KEY environment variable not set"
  else
    Except.error
      ("Error: Unknown service: " ++ service ++ ". Use \x27openrouter\x27 or \x27openai\x27")

/-- The plain `arguments.get(key, default)` reads of `translate_pdf`
(`server.py:254-261`). -/
structure Options where
  service : String
  lang_in : String
  lang_out : String
  pages : Option String
  no_dual : Bool
  no_mono : Bool
  qps : Int
  watermark : Bool
deriving DecidableEq, Repr

/-- Resolution of the pass-through options (`server.py:254-261`): a present
argument value is used as-is, an absent one falls back to the hardcoded
default. -/
def resolvedOptions (arguments : Arguments) : Options :=
  { service := arguments.service.getD "openrouter"
  , lang_in := arguments.lang_in.getD "en"
  , lang_out := arguments.lang_out.getD "zh"
  , pages := arguments.pages
  , no_dual := arguments.no_dual.getD false
  , no_mono := arguments.no_mono.getD false
  , qps := arguments.qps.getD 4
  , watermark := arguments.watermark.getD true }

/-- `output_dir = arguments.get("output_dir") or str(input_path.parent)`
(`server.py:262`): the parent of the resolved input path whenever the
argument is absent or empty. -/
def resolvedOutputDir (arguments : Arguments) (input_path : String) : String :=
  orFalsy arguments.output_dir (pathParent input_path)

/-- A `ProgressEvent` from the engine stream (`server.py:399-410`): a
progress update (with the stage fields already defaulted as the code defaults
them), an `error` event whose `error` field is either absent (`none`, which
the code defaults to `"Unknown error"`) or a string, or a `finish` event
whose `translate_result` field is either absent or a string. -/
inductive PEvent where
  | progress_update (stage : String) (current : Int) (total : Int)
  | error (payload : Option String)
  | finish (result : Option String)
deriving DecidableEq, Repr

/-- The loop state of the event-consumption loop (`server.py:395-397`):
`result_info`, `translation_error` and the accumulated `progress_info`. -/
structure StreamState where
  result_info : Option String
  translation_error : Option String
  progress_info : List String
deriving DecidableEq, Repr

/-- One iteration of the `async for` loop (`server.py:399-410`). -/
def stepEvent (st : StreamState) (e : PEvent) : StreamState :=
  match e with
  | .progress_update stage current total =>
      { st with progress_info :=
          st.progress_info ++ [stage ++ ": " ++ toString current ++ "/" ++ toString total] }
  | .error payload =>
      { st with translation_error := some (payload.getD "Unknown error") }
  | .finish result =>
      { st with result_info := result }

/-- Consume the whole event stream, threading the loop state. -/
def consumeEvents (st : StreamState) : List PEvent → StreamState
  | [] => st
  | e :: rest => consumeEvents (stepEvent st e) rest

/-- The three-way terminal shape of a drained stream. -/
inductive TerminalOutcome where
  | engineError (msg : String)
  | success (result : String)
  | noResult
deriving DecidableEq, Repr

/-- The post-loop branching of `translate_pdf` (`server.py:412-450`): Python
truthiness of `translation_error` decides the error branch, then truthiness
of `result_info` decides success versus the no-result message. -/
def terminalOutcome (events : List PEvent) : TerminalOutcome :=
  let st := consumeEvents ⟨none, none, []⟩ events
  if truthyS st.translation_error then .engineError (st.translation_error.getD "")
  else if truthyS st.result_info then .success (st.result_info.getD "")
  else .noResult

/-- One hex digit, lowercase (as Python formats `\u` escapes). -/
def hexDigit (n : Nat) : Char :=
  if n < 10 then Char.ofNat (48 + n) else Char.ofNat (87 + n)

/-- Four lowercase hex digits. -/
def toHex4 (n : Nat) : String :=
  String.mk [hexDigit (n / 4096 % 16), hexDigit (n / 256 % 16),
             hexDigit (n / 16 % 16), hexDigit (n % 16)]

/-- `json.dumps` escaping of one character with `ensure_ascii=True`: quote,
backslash and the short control escapes specially, printable ASCII verbatim,
everything else as `\uXXXX` (with surrogate pairs beyond the BMP). -/
def jsonEscapeChar (c : Char) : String :=
  if c.toNat = 34 then "\\\""
  else if c.toNat = 92 then "\\\\"
  else if c.toNat = 8 then "\\b"
  else if c.toNat = 9 then "\\t"
  else if c.toNat = 10 then "\\n"
  else if c.toNat = 12 then "\\f"
  else if c.toNat = 13 then "\\r"
  else if 32 ≤ c.toNat ∧ c.toNat ≤ 126 then String.singleton c
  else if c.toNat ≤ 65535 then "\\u" ++ toHex4 c.toNat
  else
    let v := c.toNat - 65536
    "\\u" ++ toHex4 (55296 + v / 1024) ++ "\\u" ++ toHex4 (56320 + v % 1024)

/-- A JSON string literal as `json.dumps` renders it. -/
def jsonStr (s : String) : String :=
  "\"" ++ String.join (s.data.map jsonEscapeChar) ++ "\""

/-- A JSON boolean as `json.dumps` renders it. -/
def jsonBool (b : Bool) : String := if b then "true" else "false"

/-- A JSON list of strings as `json.dumps(-, indent=2)` renders it at nesting
depth one. -/
def jsonStrList (xs : List String) : String :=
  match xs with
  | [] => "[]"
  | _ =>
    "[\n" ++ String.intercalate ",\n" (xs.map (fun s => "    " ++ jsonStr s)) ++ "\n  ]"

/-- The hardcoded supported-language catalogue (`server.py:203-217`). -/
def supportedLanguages : List String :=
  [ "en (English)", "zh (Chinese)", "vi (Vietnamese)", "ja (Japanese)"
  , "ko (Korean)", "es (Spanish)", "fr (French)", "de (German)"
  , "pt (Portuguese)", "ru (Russian)", "ar (Arabic)", "th (Thai)"
  , "id (Indonesian)" ]

/-- The status dictionary built by `get_translation_status`
(`server.py:195-218`), field for field in insertion order. -/
structure Status where
  service : String
  version : String
  openrouter_configured : Bool
  openrouter_model : String
  openrouter_base_url : String
  openai_configured : Bool
  openai_model : String
  supported_languages : List String
deriving DecidableEq, Repr

/-- Build the status record from the environment (`server.py:191-218`):
`bool(api_key)` for the configured flags, the resolved model/base URL
defaults, and the fixed language catalogue. -/
def statusOf (env : Env) : Status :=
  let config := get_env_config env
  { service := "BabelDOC MCP Server"
  , version := "1.0.0"
  , openrouter_configured := truthyS config.openrouter_api_key
  , openrouter_model := config.openrouter_model
  , openrouter_base_url := config.openrouter_base_url
  , openai_configured := truthyS config.openai_api_key
  , openai_model := config.openai_model
  , supported_languages := supportedLanguages }

/-- `json.dumps(status, indent=2)` (`server.py:220-227`). -/
def renderStatus (st : Status) : String :=
  "\x7b\n  \"service\": " ++ jsonStr st.service ++
  ",\n  \"version\": " ++ jsonStr st.version ++
  ",\n  \"openrouter_configured\": " ++ jsonBool st.openrouter_configured ++
  ",\n  \"openrouter_model\": " ++ jsonStr st.openrouter_model ++
  ",\n  \"openrouter_base_url\": " ++ jsonStr st.openrouter_base_url ++
  ",\n  \"openai_configured\": " ++ jsonBool st.openai_configured ++
  ",\n  \"openai_model\": " ++ jsonStr st.openai_model ++
  ",\n  \"supported_languages\": " ++ jsonStrList st.supported_languages ++
  "\n\x7d"

/-- `get_translation_status` (`server.py:191-227`): a pure function of the
environment returning the serialized status text. -/
def get_translation_status (env : Env) : String :=
  renderStatus (statusOf env)

/-- The success record built on the `finish` path (`server.py:424-438`). -/
structure SuccessInfo where
  input_file : String
  output_dir : String
  lang_in : String
  lang_out : String
  service : String
  model : String
  result : String
  total_tokens : Nat
  prompt_tokens : Nat
  completion_tokens : Nat
deriving DecidableEq, Repr

/-- `json.dumps(result, indent=2)` for the success record
(`server.py:439-441`). -/
def renderSuccess (i : SuccessInfo) : String :=
  "\x7b\n  \"status\": \"success\"" ++
  ",\n  \"input_file\": " ++ jsonStr i.input_file ++
  ",\n  \"output_dir\": " ++ jsonStr i.output_dir ++
  ",\n  \"lang_in\": " ++ jsonStr i.lang_in ++
  ",\n  \"lang_out\": " ++ jsonStr i.lang_out ++
  ",\n  \"service\": " ++ jsonStr i.service ++
  ",\n  \"model\": " ++ jsonStr i.model ++
  ",\n  \"result\": " ++ jsonStr i.result ++
  ",\n  \"token_usage\": \x7b\n    \"total_tokens\": " ++ toString i.total_tokens ++
  ",\n    \"prompt_tokens\": " ++ toString i.prompt_tokens ++
  ",\n    \"completion_tokens\": " ++ toString i.completion_tokens ++
  "\n  \x7d\n\x7d"

/-- Oracle for the external world inside the `try` block of `translate_pdf`
(`server.py:301-456`): each externally-performed step either succeeds
(`none`) or raises an exception with message `str(e)`; the event stream is
the finite list the `async for` loop would drain; the token counters are the
translator counters read on success. -/
structure Engine where
  initExc : Option String := none
  translatorExc : Option String := none
  layoutExc : Option String := none
  mkdirExc : Option String := none
  streamExc : Option String := none
  events : List PEvent := []
  token_count : Nat := 0
  prompt_token_count : Nat := 0
  completion_token_count : Nat := 0

/-- External effects attempted by `translate_pdf`, in program order:
engine initialization, translator construction, rate-limiter setting, layout
model loading, `mkdir(parents=True, exist_ok=True)` on the output directory,
and the engine job invocation with its pass-through options. -/
inductive Effect where
  | engineInit
  | translatorCtor (lang_in lang_out model : String) (base_url : Option String)
      (api_key : String)
  | setRateLimiter (qps : Int)
  | loadLayout
  | mkdirP (dir : String)
  | engineInvoke (input_file : String) (pages : Option String) (output_dir : String)
      (no_dual no_mono : Bool) (qps : Int) (watermark : Bool)
deriving DecidableEq, Repr

/-- A tool-call result: the single text payload returned to the host,
together with the trace of external effects the call attempted (the trace is
verification instrumentation, not part of the returned payload). -/
structure TPResult where
  text : String
  trace : List Effect
deriving DecidableEq, Repr

/-- The first exception the engine oracle raises inside the `try` block, in
program order (`none` when every step succeeds). -/
def engineFirstExc (eng : Engine) : Option String :=
  match eng.initExc with
  | some e => some e
  | none =>
    match eng.translatorExc with
    | some e => some e
    | none =>
      match eng.layoutExc with
      | some e => some e
      | none =>
        match eng.mkdirExc with
        | some e => some e
        | none => eng.streamExc

/-- The `try` block of `translate_pdf` (`server.py:301-456`): initialize the
engine, build the translator, set the rate limiter, load the layout model,
create the output directory, run the job and reduce its event stream; any
exception is caught and mapped to the fault text `Translation failed: ` plus
the message. -/
def runEngine (opts : Options) (cfg : SvcConfig) (input_path : String)
    (output_dir : String) (eng : Engine) : TPResult :=
  let t1 : List Effect := [Effect.engineInit]
  match eng.initExc with
  | some e => ⟨"Translation failed: " ++ e, t1⟩
  | none =>
    let t2 := t1 ++ [Effect.translatorCtor opts.lang_in opts.lang_out cfg.model
                      cfg.base_url cfg.api_key]
    match eng.translatorExc with
    | some e => ⟨"Translation failed: " ++ e, t2⟩
    | none =>
      let t3 := t2 ++ [Effect.setRateLimiter opts.qps, Effect.loadLayout]
      match eng.layoutExc with
      | some e => ⟨"Translation failed: " ++ e, t3⟩
      | none =>
        let t4 := t3 ++ [Effect.mkdirP output_dir]
        match eng.mkdirExc with
        | some e => ⟨"Translation failed: " ++ e, t4⟩
        | none =>
          let t5 := t4 ++ [Effect.engineInvoke (pathStr input_path) opts.pages
                            output_dir opts.no_dual opts.no_mono opts.qps opts.watermark]
          match eng.streamExc with
          | some e => ⟨"Translation failed: " ++ e, t5⟩
          | none =>
            match terminalOutcome eng.events with
            | .engineError m => ⟨"Translation error: " ++ m, t5⟩
            | .success r =>
                ⟨renderSuccess
                  { input_file := pathStr input_path
                  , output_dir := pathStr output_dir
                  , lang_in := opts.lang_in
                  , lang_out := opts.lang_out
                  , service := opts.service
                  , model := cfg.model
                  , result := r
                  , total_tokens := eng.token_count
                  , prompt_tokens := eng.prompt_token_count
                  , completion_tokens := eng.completion_token_count }, t5⟩
            | .noResult =>
                ⟨"Translation completed but no result information available", t5⟩

/-- The validation section of `translate_pdf` (`server.py:232-249`): required
`input_file` (Python-falsy test), path resolution with Unicode normalization,
and the case-insensitive `.pdf` suffix check. Returns the resolved input path
or the error text of the early return taken. -/
def validateInput (fs : FS) (nfc nfd : String → String) (arguments : Arguments) :
    Except String String :=
  match arguments.input_file with
  | none => Except.error "Error: input_file is required"
  | some input_file =>
    if input_file = "" then Except.error "Error: input_file is required"
    else
      match resolve_path_with_unicode_normalization fs nfc nfd input_file with
      | none => Except.error ("Error: File not found: " ++ input_file)
      | some input_path =>
        if pyLower (pathSuffix input_path) = ".pdf" then Except.ok input_path
        else Except.error "Error: File must be a PDF"

/-- `translate_pdf` (`server.py:230-456`): validation, option and service
resolution, then the engine-driving `try` block. -/
def translate_pdf (fs : FS) (nfc nfd : String → String) (env : Env) (eng : Engine)
    (arguments : Arguments) : TPResult :=
  match validateInput fs nfc nfd arguments with
  | Except.error t => ⟨t, []⟩
  | Except.ok input_path =>
    match resolveService arguments env with
    | Except.error t => ⟨t, []⟩
    | Except.ok cfg =>
      runEngine (resolvedOptions arguments) cfg input_path
        (resolvedOutputDir arguments input_path) eng

/-- `call_tool` (`server.py:178-188`): dispatch by tool name, with a textual
fallback for unknown tools. -/
def call_tool (fs : FS) (nfc nfd : String → String) (env : Env) (eng : Engine)
    (name : String) (arguments : Arguments) : TPResult :=
  if name = "translate_pdf" then translate_pdf fs nfc nfd env eng arguments
  else if name = "get_translation_status" then ⟨get_translation_status env, []⟩
  else ⟨"Unknown tool: " ++ name, []⟩

/-- `tag` is a prefix of `t` (the "result text begins with the stable
category tag" relation of the error-mapping claims). -/
def strStartsWith (t tag : String) : Bool :=
  tag.data.isPrefixOf t.data

/-- The value `translation_error` holds after the loop: the defaulted payload
of the last `error` event, if any. -/
def lastErr : List PEvent → Option String
  | [] => none
  | e :: rest =>
    match lastErr rest with
    | some q => some q
    | none =>
      match e with
      | .error p => some (p.getD "Unknown error")
      | _ => none

/-- The value `result_info` holds after the loop, when at least one `finish`
event occurred: the (possibly absent) payload of the last `finish` event. -/
def lastFin : List PEvent → Option (Option String)
  | [] => none
  | e :: rest =>
    match lastFin rest with
    | some r => some r
    | none =>
      match e with
      | .finish r => some r
      | _ => none

/-- The amended reduction rule, stated from the last-event view: the outcome
is `engineError` on the defaulted payload of the last `error` event provided
that payload is non-empty; else `success` on the last `finish` payload
provided it is present and non-empty; else `noResult`. -/
def terminalOutcomeAmendedSpec (events : List PEvent) : TerminalOutcome :=
  let te := lastErr events
  let ri := (lastFin events).getD none
  if truthyS te then .engineError (te.getD "")
  else if truthyS ri then .success (ri.getD "")
  else .noResult

/-- The early-return text of `translate_pdf` when it fails before entering
the `try` block (validation or provider/credential resolution), if any. -/
def preEngineError (fs : FS) (nfc nfd : String → String) (env : Env)
    (arguments : Arguments) : Option String :=
  match validateInput fs nfc nfd arguments with
  | Except.error t => some t
  | Except.ok _ =>
    match resolveService arguments env with
    | Except.error t => some t
    | Except.ok _ => none

/-- Fixture: a filesystem with `/w/in.pdf`, `/w/up.PDF` and `/w/bad.txt`. -/
def fsW : FS :=
  ⟨fun s => s == "/w/in.pdf" || s == "/w/up.PDF" || s == "/w/bad.txt" || s == "/w"
  , fun d => if d == "/w" then ["/w/in.pdf", "/w/up.PDF", "/w/bad.txt"] else []⟩

/-- Fixture: a filesystem with no entries at all. -/
def fsEmptyW : FS := ⟨fun _ => false, fun _ => []⟩

/-- Fixture: environment with only the OpenRouter key set. -/
def envW : Env := { OPENROUTER_API_KEY := some "k" }

/-- Fixture: engine oracle that succeeds and finishes with a result. -/
def engW : Engine := { events := [PEvent.finish (some "done")] }

/-- Fixture: engine oracle whose initialization raises. -/
def engFaultW : Engine := { initExc := some "boom" }

/-- Fixture: arguments selecting `/w/in.pdf`. -/
def argsW : Arguments := { input_file := some "/w/in.pdf" }

/-- Fixture: arguments selecting the upper-case-extension file `/w/up.PDF`. -/
def argsUpW : Arguments := { input_file := some "/w/up.PDF" }

/-- Fixture: arguments naming a file that does not exist. -/
def argsMissingW : Arguments := { input_file := some "/missing/a.pdf" }

/-- Fixture: environment with no variables set. -/
def envEmptyW : Env := {}

/-- Fixture: empty argument bag. -/
def argsEmptyW : Arguments := {}

/-- Fixture: arguments passing an explicit empty-string `model`. -/
def argsModelEmptyW : Arguments := { model := some "" }

/-- Fixture: arguments passing an explicit non-empty `model`. -/
def argsModelW : Arguments := { model := some "argmodel" }

/-- Fixture: environment with the OpenRouter key and model set. -/
def envModelW : Env :=
  { OPENROUTER_API_KEY := some "k", OPENROUTER_MODEL := some "envmodel" }

/-- Fixture: environment with one OpenRouter key value. -/
def envKeyAW : Env := { OPENROUTER_API_KEY := some "secret-a" }

/-- Fixture: environment with a different OpenRouter key value. -/
def envKeyBW : Env := { OPENROUTER_API_KEY := some "b2" }

/-- Fixture: the service configuration resolved for `argsW` under `envW`. -/
def svcW : SvcConfig :=
  ⟨"k", "google/gemini-2.5-flash", some "https://openrouter.ai/api/v1"⟩

theorem list_isPrefixOf_self_append (l r : List Char) :
    l.isPrefixOf (l ++ r) = true := by
  induction l with
  | nil => simp [List.isPrefixOf]
  | cons a as ih => simp [List.isPrefixOf, ih]

theorem list_isPrefixOf_append_right (l m r : List Char)
    (h : l.isPrefixOf m = true) : l.isPrefixOf (m ++ r) = true := by
  induction l generalizing m with
  | nil => simp [List.isPrefixOf]
  | cons a as ih =>
    cases m with
    | nil => simp [List.isPrefixOf] at h
    | cons b bs =>
      simp only [List.isPrefixOf, Bool.and_eq_true] at h ⊢
      exact ⟨h.1, ih bs h.2⟩

theorem strStartsWith_append (tag rest : String) :
    strStartsWith (tag ++ rest) tag = true := by
  show tag.data.isPrefixOf (tag.data ++ rest.data) = true
  exact list_isPrefixOf_self_append _ _

theorem strStartsWith_append_right (tag a b : String)
    (h : strStartsWith a tag = true) : strStartsWith (a ++ b) tag = true := by
  show tag.data.isPrefixOf (a.data ++ b.data) = true
  exact list_isPrefixOf_append_right _ _ _ h

theorem findMatch_eq_find? (nfc nfd : String → String) (tnc tnd : String)
    (items : List String) :
    findMatch nfc nfd tnc tnd items = items.find? (fun item =>
      nfc (pathName item) == tnc || nfd (pathName item) == tnd ||
      nfc (pathName item) == tnd || nfd (pathName item) == tnc) := by
  induction items with
  | nil => rfl
  | cons item rest ih =>
    simp only [findMatch, List.find?]
    cases h1 : nfc (pathName item) == tnc <;>
      cases h2 : nfd (pathName item) == tnd <;>
      cases h3 : nfc (pathName item) == tnd <;>
      cases h4 : nfd (pathName item) == tnc <;>
      simp [h1, h2, h3, h4, ih]

theorem consumeEvents_translation_error (evs : List PEvent) :
    ∀ st : StreamState, (consumeEvents st evs).translation_error =
      (lastErr evs).elim st.translation_error some := by
  induction evs with
  | nil => intro st; rfl
  | cons e rest ih =>
    intro st
    simp only [consumeEvents, lastErr]
    rw [ih]
    cases h : lastErr rest <;> cases e <;> simp [stepEvent, h]

theorem consumeEvents_result_info (evs : List PEvent) :
    ∀ st : StreamState, (consumeEvents st evs).result_info =
      (lastFin evs).elim st.result_info id := by
  induction evs with
  | nil => intro st; rfl
  | cons e rest ih =>
    intro st
    simp only [consumeEvents, lastFin]
    rw [ih]
    cases h : lastFin rest <;> cases e <;> simp [stepEvent, h]


theorem runEngine_fault (opts : Options) (cfg : SvcConfig) (ip od : String)
    (eng : Engine) (e : String) (h : engineFirstExc eng = some e) :
    (runEngine opts cfg ip od eng).text = "Translation failed: " ++ e := by
  unfold engineFirstExc at h
  unfold runEngine
  cases h1 : eng.initExc <;> simp only [h1] at h ⊢
  case some => simp at h; simp [h]
  cases h2 : eng.translatorExc <;> simp only [h2] at h ⊢
  case some => simp at h; simp [h]
  cases h3 : eng.layoutExc <;> simp only [h3] at h ⊢
  case some => simp at h; simp [h]
  cases h4 : eng.mkdirExc <;> simp only [h4] at h ⊢
  case some => simp at h; simp [h]
  simp [h]

theorem engineFirstExc_none (eng : Engine) (h : engineFirstExc eng = none) :
    eng.initExc = none ∧ eng.translatorExc = none ∧ eng.layoutExc = none ∧
      eng.mkdirExc = none ∧ eng.streamExc = none := by
  unfold engineFirstExc at h
  cases h1 : eng.initExc <;> simp only [h1] at h ⊢
  case some => exact absurd h (by simp)
  cases h2 : eng.translatorExc <;> simp only [h2] at h ⊢
  case some => exact absurd h (by simp)
  cases h3 : eng.layoutExc <;> simp only [h3] at h ⊢
  case some => exact absurd h (by simp)
  cases h4 : eng.mkdirExc <;> simp only [h4] at h ⊢
  case some => exact absurd h (by simp)
  exact ⟨trivial, trivial, trivial, trivial, h⟩

theorem runEngine_ok_text (opts : Options) (cfg : SvcConfig) (ip od : String)
    (eng : Engine) (h : engineFirstExc eng = none) :
    (runEngine opts cfg ip od eng).text =
      match terminalOutcome eng.events with
      | .engineError m => "Translation error: " ++ m
      | .success r =>
          renderSuccess
            { input_file := pathStr ip
            , output_dir := pathStr od
            , lang_in := opts.lang_in
            , lang_out := opts.lang_out
            , service := opts.service
            , model := cfg.model
            , result := r
            , total_tokens := eng.token_count
            , prompt_tokens := eng.prompt_token_count
            , completion_tokens := eng.completion_token_count }
      | .noResult => "Translation completed but no result information available" := by
  obtain ⟨h1, h2, h3, h4, h5⟩ := engineFirstExc_none eng h
  unfold runEngine
  rw [h1, h2, h3, h4, h5]
  cases terminalOutcome eng.events <;> rfl

theorem runEngine_trace_invoked (opts : Options) (cfg : SvcConfig) (ip od : String)
    (eng : Engine) (h1 : eng.initExc = none) (h2 : eng.translatorExc = none)
    (h3 : eng.layoutExc = none) (h4 : eng.mkdirExc = none) :
    (runEngine opts cfg ip od eng).trace =
      [Effect.engineInit,
       Effect.translatorCtor opts.lang_in opts.lang_out cfg.model cfg.base_url cfg.api_key,
       Effect.setRateLimiter opts.qps,
       Effect.loadLayout,
       Effect.mkdirP od,
       Effect.engineInvoke (pathStr ip) opts.pages od opts.no_dual opts.no_mono
         opts.qps opts.watermark] := by
  unfold runEngine
  rw [h1, h2, h3, h4]
  cases h5 : eng.streamExc
  · cases terminalOutcome eng.events <;> rfl
  · rfl

theorem validateInput_error_tagged (fs : FS) (nfc nfd : String → String)
    (arguments : Arguments) (t : String)
    (h : validateInput fs nfc nfd arguments = Except.error t) :
    strStartsWith t "Error:" = true := by
  unfold validateInput at h
  cases hi : arguments.input_file <;> rw [hi] at h
  · injection h with h
    rw [← h]; decide
  case some f =>
    dsimp only at h
    by_cases hf : f = ""
    · rw [if_pos hf] at h
      injection h with h
      rw [← h]; decide
    · rw [if_neg hf] at h
      cases hr : resolve_path_with_unicode_normalization fs nfc nfd f <;> rw [hr] at h <;> dsimp only at h
      · injection h with h
        rw [← h]
        have hsplit : "Error: File not found: " ++ f = "Error:" ++ (" File not found: " ++ f) := by
          have hlit : "Error: File not found: " = "Error:" ++ " File not found: " := by decide
          rw [hlit]
          apply String.ext
          show _ ++ _ = _
          simp [List.append_assoc]
        rw [hsplit]
        exact strStartsWith_append _ _
      · rename_i p
        by_cases hs : pyLower (pathSuffix p) = ".pdf"
        · rw [if_pos hs] at h; exact absurd h (by simp)
        · rw [if_neg hs] at h
          injection h with h
          rw [← h]; decide

theorem resolveService_error_tagged (arguments : Arguments) (env : Env) (t : String)
    (h : resolveService arguments env = Except.error t) :
    strStartsWith t "Error:" = true := by
  unfold resolveService at h
  by_cases hs : arguments.service.getD "openrouter" = "openrouter"
  · rw [if_pos hs] at h
    cases hk : truthyS (get_env_config env).openrouter_api_key <;> rw [hk] at h
    · simp only [Bool.false_eq_true, if_false] at h
      injection h with h
      rw [← h]; decide
    · simp only [if_true] at h
      exact absurd h (by simp)
  · rw [if_neg hs] at h
    by_cases hs2 : arguments.service.getD "openrouter" = "openai"
    · rw [if_pos hs2] at h
      cases hk : truthyS (get_env_config env).openai_api_key <;> rw [hk] at h
      · simp only [Bool.false_eq_true, if_false] at h
        injection h with h
        rw [← h]; decide
      · simp only [if_true] at h
        exact absurd h (by simp)
    · rw [if_neg hs2] at h
      injection h with h
      rw [← h]
      have hsplit : "Error: Unknown service: " ++ arguments.service.getD "openrouter" ++
          ". Use \x27openrouter\x27 or \x27openai\x27" =
          "Error:" ++ (" Unknown service: " ++ arguments.service.getD "openrouter" ++
          ". Use \x27openrouter\x27 or \x27openai\x27") := by
        apply String.ext
        show _ = _
        simp [List.append_assoc]
      rw [hsplit]
      exact strStartsWith_append _ _

theorem translate_pdf_pre_error (fs : FS) (nfc nfd : String → String) (env : Env)
    (eng : Engine) (arguments : Arguments) (t : String)
    (h : preEngineError fs nfc nfd env arguments = some t) :
    translate_pdf fs nfc nfd env eng arguments = ⟨t, []⟩ := by
  unfold preEngineError at h
  unfold translate_pdf
  cases hv : validateInput fs nfc nfd arguments <;> rw [hv] at h <;> dsimp only at h
  · injection h with h; rw [h]
  · cases hs : resolveService arguments env <;> rw [hs] at h <;> dsimp only at h
    · injection h with h; rw [h]
    · exact absurd h (by simp)

theorem translate_pdf_reaches_engine (fs : FS) (nfc nfd : String → String)
    (env : Env) (eng : Engine) (arguments : Arguments) (p : String) (cfg : SvcConfig)
    (hv : validateInput fs nfc nfd arguments = Except.ok p)
    (hs : resolveService arguments env = Except.ok cfg) :
    translate_pdf fs nfc nfd env eng arguments =
      runEngine (resolvedOptions arguments) cfg p (resolvedOutputDir arguments p) eng := by
  unfold translate_pdf
  rw [hv, hs]

theorem preEngineError_tagged (fs : FS) (nfc nfd : String → String) (env : Env)
    (arguments : Arguments) (t : String)
    (h : preEngineError fs nfc nfd env arguments = some t) :
    strStartsWith t "Error:" = true := by
  unfold preEngineError at h
  cases hv : validateInput fs nfc nfd arguments <;> rw [hv] at h <;> dsimp only at h
  · injection h with h
    rw [← h]
    exact validateInput_error_tagged fs nfc nfd arguments _ hv
  · cases hs : resolveService arguments env <;> rw [hs] at h <;> dsimp only at h
    · injection h with h
      rw [← h]
      exact resolveService_error_tagged arguments env _ hs
    · exact absurd h (by simp)

/-- C2 (counterexample): the claim says an observed `error` event always
yields an `EngineError` outcome carrying the payload of the last error event;
but for the concrete stream `[error ""]` the code falls through the Python
truthiness test `if translation_error:` and produces the no-result outcome,
not `engineError ""`. -/
theorem c2_counterexample :
    terminalOutcome [PEvent.error (some "")] = TerminalOutcome.noResult ∧
    terminalOutcome [PEvent.error (some "")] ≠ TerminalOutcome.engineError "" := by
  constructor
  · rfl
  · decide

/-- C2 (amended): for every finite event sequence, the terminal outcome,
determined only after the whole sequence is consumed, is: `engineError` with
the defaulted payload of the last `error` event provided that payload is
non-empty; else `success` with the payload of the last `finish` event
provided it is present and non-empty; else the no-result outcome (an `error`
or `finish` event whose payload is empty or absent is treated by the code as
if no such event had been observed, because only Python-truthy values pass
the terminal tests). -/
theorem c2_terminal_outcome_reduction (events : List PEvent) :
    terminalOutcome events = terminalOutcomeAmendedSpec events := by
  unfold terminalOutcome terminalOutcomeAmendedSpec
  dsimp only
  rw [consumeEvents_translation_error, consumeEvents_result_info]
  cases hE : lastErr events <;> cases hF : lastFin events <;> simp [Option.elim]

/-- C4: the path resolver implements exactly the ordered, first-match-wins
algorithm of the spec (return the path if it exists as given; else the NFC
form, then the NFD form; else the first child of an existing parent matching
under any of the four NFC/NFD cross-combinations; else `NotFound`), and it is
idempotent on existing paths. -/
theorem c4_resolver_matches_spec (fs : FS) (nfc nfd : String → String) (p : String) :
    resolve_path_with_unicode_normalization fs nfc nfd p = resolve_spec fs nfc nfd p ∧
    (fs.pexists p = true →
      resolve_path_with_unicode_normalization fs nfc nfd p = some p) := by
  constructor
  · unfold resolve_path_with_unicode_normalization resolve_spec
    cases h1 : fs.pexists p
    · cases h2 : fs.pexists (nfc p)
      · cases h3 : fs.pexists (nfd p)
        · cases h4 : fs.pexists (pathParent p)
          · simp [h1, h2, h3, h4]
          · simp [h1, h2, h3, h4, findMatch_eq_find?]
        · simp [h1, h2, h3]
      · simp [h1, h2]
    · simp [h1]
  · intro h
    unfold resolve_path_with_unicode_normalization
    simp [h]

/-- C4 (witness). -/
theorem c4_witness :
    resolve_path_with_unicode_normalization fsW id id "/w/in.pdf" = some "/w/in.pdf" :=
  (c4_resolver_matches_spec fsW id id "/w/in.pdf").2 (by decide)

/-- C7: dispatch is total -- for every tool name other than the two
registered ones, and every argument bag, `call_tool` returns the textual
unknown-tool result (with no external effects), rather than raising or
failing the call. -/
theorem c7_dispatch_total (fs : FS) (nfc nfd : String → String) (env : Env)
    (eng : Engine) (name : String) (arguments : Arguments)
    (h1 : name ≠ "translate_pdf") (h2 : name ≠ "get_translation_status") :
    call_tool fs nfc nfd env eng name arguments = ⟨"Unknown tool: " ++ name, []⟩ := by
  unfold call_tool
  rw [if_neg h1, if_neg h2]

/-- C7 (witness). -/
theorem c7_witness :
    call_tool fsW id id envW engW "bogus" argsEmptyW =
      ⟨"Unknown tool: " ++ "bogus", []⟩ :=
  c7_dispatch_total fsW id id envW engW "bogus" argsEmptyW (by decide) (by decide)

/-- C1: the call-handling function is a total function into a single
`TPResult` (so exactly one result per tool call by construction), and no
exception escapes it: whenever the engine oracle raises at any stage of the
guarded region (engine initialization, translator/request construction,
layout loading, output-directory creation, or event-stream consumption) on a
call that reached the engine, the call still returns normally, with the
exception mapped to the textual fault result; a `get_translation_status`
call likewise always returns its single textual result. -/
theorem c1_no_exception_escapes :
    (∀ (fs : FS) (nfc nfd : String → String) (env : Env) (eng : Engine)
       (arguments : Arguments) (p : String) (cfg : SvcConfig) (e : String),
       validateInput fs nfc nfd arguments = Except.ok p →
       resolveService arguments env = Except.ok cfg →
       engineFirstExc eng = some e →
       (call_tool fs nfc nfd env eng "translate_pdf" arguments).text =
         "Translation failed: " ++ e) ∧
    (∀ (fs : FS) (nfc nfd : String → String) (env : Env) (eng : Engine)
       (arguments : Arguments),
       call_tool fs nfc nfd env eng "get_translation_status" arguments =
         ⟨get_translation_status env, []⟩) := by
  constructor
  · intro fs nfc nfd env eng arguments p cfg e hv hs he
    show (translate_pdf fs nfc nfd env eng arguments).text = _
    rw [translate_pdf_reaches_engine fs nfc nfd env eng arguments p cfg hv hs]
    exact runEngine_fault _ _ _ _ _ _ he
  · intro fs nfc nfd env eng arguments
    rfl

/-- C1 (witness). -/
theorem c1_witness :
    (call_tool fsW id id envW engFaultW "translate_pdf" argsW).text =
      "Translation failed: " ++ "boom" :=
  c1_no_exception_escapes.1 fsW id id envW engFaultW argsW "/w/in.pdf" svcW "boom"
    (by rfl) (by rfl) (by rfl)

theorem translate_pdf_svc_error (fs : FS) (nfc nfd : String → String) (env : Env)
    (eng : Engine) (arguments : Arguments) (p t : String)
    (hv : validateInput fs nfc nfd arguments = Except.ok p)
    (hs : resolveService arguments env = Except.error t) :
    translate_pdf fs nfc nfd env eng arguments = ⟨t, []⟩ := by
  unfold translate_pdf
  rw [hv, hs]

/-- C3 (counterexample): the claim says validation failures are prefixed by
the tag `Validation error:`; but a call with a non-existent `input_file`
returns text starting with `Error:` (namely `Error: File not found: ...`),
which does not begin with `Validation error:`. -/
theorem c3_counterexample :
    (translate_pdf fsEmptyW id id envEmptyW engW argsMissingW).text =
      "Error: File not found: /missing/a.pdf" ∧
    strStartsWith "Error: File not found: /missing/a.pdf" "Validation error:" = false :=
  ⟨by rfl, by decide⟩

/-- C3 (amended): every non-success result text carries the stable category
tag of its kind: validation and configuration failures return early (with no
engine effects) with text beginning `Error:`; an engine-reported error
yields the payload appended to `Translation error: `; an exception at the
engine boundary yields its message appended to `Translation failed: `; and a stream that ends with neither
signal yields the fixed no-result text. -/
theorem c3_error_text_tags :
    (∀ (fs : FS) (nfc nfd : String → String) (env : Env) (eng : Engine)
       (arguments : Arguments) (t : String),
       preEngineError fs nfc nfd env arguments = some t →
       translate_pdf fs nfc nfd env eng arguments = ⟨t, []⟩ ∧
         strStartsWith t "Error:" = true) ∧
    (∀ (fs : FS) (nfc nfd : String → String) (env : Env) (eng : Engine)
       (arguments : Arguments) (p : String) (cfg : SvcConfig) (m : String),
       validateInput fs nfc nfd arguments = Except.ok p →
       resolveService arguments env = Except.ok cfg →
       engineFirstExc eng = none →
       terminalOutcome eng.events = TerminalOutcome.engineError m →
       (translate_pdf fs nfc nfd env eng arguments).text = "Translation error: " ++ m) ∧
    (∀ (fs : FS) (nfc nfd : String → String) (env : Env) (eng : Engine)
       (arguments : Arguments) (p : String) (cfg : SvcConfig) (e : String),
       validateInput fs nfc nfd arguments = Except.ok p →
       resolveService arguments env = Except.ok cfg →
       engineFirstExc eng = some e →
       (translate_pdf fs nfc nfd env eng arguments).text = "Translation failed: " ++ e) ∧
    (∀ (fs : FS) (nfc nfd : String → String) (env : Env) (eng : Engine)
       (arguments : Arguments) (p : String) (cfg : SvcConfig),
       validateInput fs nfc nfd arguments = Except.ok p →
       resolveService arguments env = Except.ok cfg →
       engineFirstExc eng = none →
       terminalOutcome eng.events = TerminalOutcome.noResult →
       (translate_pdf fs nfc nfd env eng arguments).text =
         "Translation completed but no result information available") := by
  refine ⟨?_, ?_, ?_, ?_⟩
  · intro fs nfc nfd env eng arguments t h
    exact ⟨translate_pdf_pre_error fs nfc nfd env eng arguments t h,
           preEngineError_tagged fs nfc nfd env arguments t h⟩
  · intro fs nfc nfd env eng arguments p cfg m hv hs hok hm
    rw [translate_pdf_reaches_engine fs nfc nfd env eng arguments p cfg hv hs]
    rw [runEngine_ok_text _ _ _ _ _ hok, hm]
  · intro fs nfc nfd env eng arguments p cfg e hv hs he
    rw [translate_pdf_reaches_engine fs nfc nfd env eng arguments p cfg hv hs]
    exact runEngine_fault _ _ _ _ _ _ he
  · intro fs nfc nfd env eng arguments p cfg hv hs hok hm
    rw [translate_pdf_reaches_engine fs nfc nfd env eng arguments p cfg hv hs]
    rw [runEngine_ok_text _ _ _ _ _ hok, hm]

/-- C3 (witness). -/
theorem c3_witness :
    translate_pdf fsEmptyW id id envEmptyW engW argsMissingW =
      ⟨"Error: File not found: /missing/a.pdf", []⟩ ∧
    strStartsWith "Error: File not found: /missing/a.pdf" "Error:" = true :=
  c3_error_text_tags.1 fsEmptyW id id envEmptyW engW argsMissingW
    "Error: File not found: /missing/a.pdf" (by rfl)

/-- C6: a call that selects a provider whose API key environment variable is
unset (or empty) returns the error text naming that variable, and the check
precedes any external engine interaction -- the effect trace of such a call
is empty (no engine initialization, translator construction, or job
invocation); an unrecognized service name likewise returns its validation
error, never a silent fallback; and more generally every provider-resolution
failure leaves the effect trace empty. -/
theorem c6_missing_key_fails_before_engine :
    (∀ (fs : FS) (nfc nfd : String → String) (env : Env) (eng : Engine)
       (arguments : Arguments) (p : String),
       validateInput fs nfc nfd arguments = Except.ok p →
       arguments.service.getD "openrouter" = "openrouter" →
       truthyS env.OPENROUTER_API_KEY = false →
       translate_pdf fs nfc nfd env eng arguments =
         ⟨"Error: OPENROUTER_API_KEY environment variable not set", []⟩) ∧
    (∀ (fs : FS) (nfc nfd : String → String) (env : Env) (eng : Engine)
       (arguments : Arguments) (p : String),
       validateInput fs nfc nfd arguments = Except.ok p →
       arguments.service.getD "openrouter" = "openai" →
       truthyS env.OPENAI_API_KEY = false →
       translate_pdf fs nfc nfd env eng arguments =
         ⟨"Error: OPENAI_API_KEY environment variable not set", []⟩) ∧
    (∀ (fs : FS) (nfc nfd : String → String) (env : Env) (eng : Engine)
       (arguments : Arguments) (p s : String),
       validateInput fs nfc nfd arguments = Except.ok p →
       arguments.service = some s → s ≠ "openrouter" → s ≠ "openai" →
       translate_pdf fs nfc nfd env eng arguments =
         ⟨"Error: Unknown service: " ++ s ++
            ". Use \x27openrouter\x27 or \x27openai\x27", []⟩) ∧
    (∀ (fs : FS) (nfc nfd : String → String) (env : Env) (eng : Engine)
       (arguments : Arguments) (t : String),
       resolveService arguments env = Except.error t →
       (translate_pdf fs nfc nfd env eng arguments).trace = []) := by
  refine ⟨?_, ?_, ?_, ?_⟩
  · intro fs nfc nfd env eng arguments p hv hs hk
    refine translate_pdf_svc_error fs nfc nfd env eng arguments p _ hv ?_
    simp [resolveService, get_env_config, hs, hk]
  · intro fs nfc nfd env eng arguments p hv hs hk
    refine translate_pdf_svc_error fs nfc nfd env eng arguments p _ hv ?_
    simp [resolveService, get_env_config, hs, hk]
  · intro fs nfc nfd env eng arguments p s hv hsome h1 h2
    refine translate_pdf_svc_error fs nfc nfd env eng arguments p _ hv ?_
    simp [resolveService, hsome, h1, h2]
  · intro fs nfc nfd env eng arguments t hsvc
    cases hv : validateInput fs nfc nfd arguments with
    | error t0 =>
      have hpre : preEngineError fs nfc nfd env arguments = some t0 := by
        simp [preEngineError, hv]
      rw [translate_pdf_pre_error fs nfc nfd env eng arguments t0 hpre]
    | ok p =>
      rw [translate_pdf_svc_error fs nfc nfd env eng arguments p t hv hsvc]

/-- C6 (witness). -/
theorem c6_witness :
    translate_pdf fsW id id envEmptyW engW argsW =
      ⟨"Error: OPENROUTER_API_KEY environment variable not set", []⟩ :=
  c6_missing_key_fails_before_engine.1 fsW id id envEmptyW engW argsW "/w/in.pdf"
    (by rfl) (by rfl) (by rfl)

/-- C5 (counterexample): the claim says an explicit per-call argument value
always overrides the environment-derived value; but an explicit empty-string
`model` argument is Python-falsy, so the environment model wins: with
`model=""` passed and `OPENROUTER_MODEL=envmodel` set, the resolved model is
`envmodel`, not the explicit `""`. -/
theorem c5_counterexample :
    argsModelEmptyW.model = some "" ∧
    resolveService argsModelEmptyW envModelW =
      Except.ok ⟨"k", "envmodel", some "https://openrouter.ai/api/v1"⟩ ∧
    "envmodel" ≠ "" :=
  ⟨rfl, by rfl, by decide⟩

/-- C5 (amended): per-call arguments take precedence over environment and
hardcoded defaults for every configuration field, with one qualification: for
`service`, `lang_in`, `lang_out`, `qps`, `watermark`, `no_dual` and `no_mono`
a present argument value is always used (falling back to the hardcoded
defaults `openrouter`, `en`, `zh`, `4`, `true`, `false`, `false` when
absent), while for `model` a present *non-empty* argument value overrides and
an explicit empty string is treated as absent, falling back to the
environment-derived per-provider model (itself defaulting to
`google/gemini-2.5-flash` for openrouter and `gpt-4o-mini` for openai);
the openrouter base URL comes from the environment with its hardcoded
default, the openai base URL from the environment alone. Resolution is a
pure function of the argument bag and the environment (stateless per call). -/
theorem c5_config_precedence :
    (∀ (arguments : Arguments) (v : String), arguments.service = some v →
       (resolvedOptions arguments).service = v) ∧
    (∀ arguments : Arguments, arguments.service = none →
       (resolvedOptions arguments).service = "openrouter") ∧
    (∀ (arguments : Arguments) (v : String), arguments.lang_in = some v →
       (resolvedOptions arguments).lang_in = v) ∧
    (∀ arguments : Arguments, arguments.lang_in = none →
       (resolvedOptions arguments).lang_in = "en") ∧
    (∀ (arguments : Arguments) (v : String), arguments.lang_out = some v →
       (resolvedOptions arguments).lang_out = v) ∧
    (∀ arguments : Arguments, arguments.lang_out = none →
       (resolvedOptions arguments).lang_out = "zh") ∧
    (∀ (arguments : Arguments) (v : Int), arguments.qps = some v →
       (resolvedOptions arguments).qps = v) ∧
    (∀ arguments : Arguments, arguments.qps = none →
       (resolvedOptions arguments).qps = 4) ∧
    (∀ (arguments : Arguments) (v : Bool), arguments.watermark = some v →
       (resolvedOptions arguments).watermark = v) ∧
    (∀ arguments : Arguments, arguments.watermark = none →
       (resolvedOptions arguments).watermark = true) ∧
    (∀ (arguments : Arguments) (v : Bool), arguments.no_dual = some v →
       (resolvedOptions arguments).no_dual = v) ∧
    (∀ arguments : Arguments, arguments.no_dual = none →
       (resolvedOptions arguments).no_dual = false) ∧
    (∀ (arguments : Arguments) (v : Bool), arguments.no_mono = some v →
       (resolvedOptions arguments).no_mono = v) ∧
    (∀ arguments : Arguments, arguments.no_mono = none →
       (resolvedOptions arguments).no_mono = false) ∧
    (∀ (arguments : Arguments) (env : Env) (v : String) (cfg : SvcConfig),
       arguments.model = some v → v ≠ "" →
       resolveService arguments env = Except.ok cfg → cfg.model = v) ∧
    (∀ (arguments : Arguments) (env : Env) (cfg : SvcConfig),
       (arguments.model = none ∨ arguments.model = some "") →
       arguments.service.getD "openrouter" = "openrouter" →
       resolveService arguments env = Except.ok cfg →
       cfg.model = env.OPENROUTER_MODEL.getD "google/gemini-2.5-flash" ∧
       cfg.base_url = some (env.OPENROUTER_BASE_URL.getD "https://openrouter.ai/api/v1")) ∧
    (∀ (arguments : Arguments) (env : Env) (cfg : SvcConfig),
       (arguments.model = none ∨ arguments.model = some "") →
       arguments.service.getD "openrouter" = "openai" →
       resolveService arguments env = Except.ok cfg →
       cfg.model = env.OPENAI_MODEL.getD "gpt-4o-mini" ∧
       cfg.base_url = env.OPENAI_BASE_URL) := by
  refine ⟨?_, ?_, ?_, ?_, ?_, ?_, ?_, ?_, ?_, ?_, ?_, ?_, ?_, ?_, ?_, ?_, ?_⟩
  · intro arguments v h; simp [resolvedOptions, h]
  · intro arguments h; simp [resolvedOptions, h]
  · intro arguments v h; simp [resolvedOptions, h]
  · intro arguments h; simp [resolvedOptions, h]
  · intro arguments v h; simp [resolvedOptions, h]
  · intro arguments h; simp [resolvedOptions, h]
  · intro arguments v h; simp [resolvedOptions, h]
  · intro arguments h; simp [resolvedOptions, h]
  · intro arguments v h; simp [resolvedOptions, h]
  · intro arguments h; simp [resolvedOptions, h]
  · intro arguments v h; simp [resolvedOptions, h]
  · intro arguments h; simp [resolvedOptions, h]
  · intro arguments v h; simp [resolvedOptions, h]
  · intro arguments h; simp [resolvedOptions, h]
  · intro arguments env v cfg hm hv hok
    unfold resolveService at hok
    dsimp only at hok
    by_cases hs : arguments.service.getD "openrouter" = "openrouter"
    · rw [if_pos hs] at hok
      cases hk : truthyS (get_env_config env).openrouter_api_key <;> rw [hk] at hok
      · simp at hok
      · simp only [if_true] at hok
        injection hok with h2
        rw [← h2]
        show orFalsy arguments.model (get_env_config env).openrouter_model = v
        rw [hm]
        simp [orFalsy, hv]
    · rw [if_neg hs] at hok
      by_cases hs2 : arguments.service.getD "openrouter" = "openai"
      · rw [if_pos hs2] at hok
        cases hk : truthyS (get_env_config env).openai_api_key <;> rw [hk] at hok
        · simp at hok
        · simp only [if_true] at hok
          injection hok with h2
          rw [← h2]
          show orFalsy arguments.model (get_env_config env).openai_model = v
          rw [hm]
          simp [orFalsy, hv]
      · rw [if_neg hs2] at hok
        exact absurd hok (by simp)
  · intro arguments env cfg hm hs hok
    unfold resolveService at hok
    dsimp only at hok
    rw [if_pos hs] at hok
    cases hk : truthyS (get_env_config env).openrouter_api_key <;> rw [hk] at hok
    · simp at hok
    · simp only [if_true] at hok
      injection hok with h2
      rw [← h2]
      constructor
      · show orFalsy arguments.model (get_env_config env).openrouter_model = _
        rcases hm with hm | hm <;> rw [hm] <;> simp [orFalsy, get_env_config]
      · rfl
  · intro arguments env cfg hm hs hok
    unfold resolveService at hok
    dsimp only at hok
    rw [if_neg (by rw [hs]; decide), if_pos hs] at hok
    cases hk : truthyS (get_env_config env).openai_api_key <;> rw [hk] at hok
    · simp at hok
    · simp only [if_true] at hok
      injection hok with h2
      rw [← h2]
      constructor
      · show orFalsy arguments.model (get_env_config env).openai_model = _
        rcases hm with hm | hm <;> rw [hm] <;> simp [orFalsy, get_env_config]
      · rfl

/-- C5 (witness). -/
theorem c5_witness :
    (⟨"k", "argmodel", some "https://openrouter.ai/api/v1"⟩ : SvcConfig).model =
      "argmodel" :=
  c5_config_precedence.2.2.2.2.2.2.2.2.2.2.2.2.2.2.1 argsModelW envModelW "argmodel"
    ⟨"k", "argmodel", some "https://openrouter.ai/api/v1"⟩ rfl (by decide) (by rfl)

/-- C8: `get_translation_status` is a pure function of the environment that
depends on each API key only through whether it is set to a non-empty value:
for any two environments that agree on the non-key variables and on the
truthiness of each key, the full status text is identical (in particular the
key values are never echoed); the supported-language catalogue is the fixed,
non-empty hardcoded list; and with no environment variables set both
configured flags are false. -/
theorem c8_status_key_blind :
    (∀ e1 e2 : Env,
       e1.OPENROUTER_BASE_URL = e2.OPENROUTER_BASE_URL →
       e1.OPENROUTER_MODEL = e2.OPENROUTER_MODEL →
       e1.OPENAI_BASE_URL = e2.OPENAI_BASE_URL →
       e1.OPENAI_MODEL = e2.OPENAI_MODEL →
       truthyS e1.OPENROUTER_API_KEY = truthyS e2.OPENROUTER_API_KEY →
       truthyS e1.OPENAI_API_KEY = truthyS e2.OPENAI_API_KEY →
       get_translation_status e1 = get_translation_status e2) ∧
    (∀ env : Env, (statusOf env).supported_languages = supportedLanguages) ∧
    supportedLanguages ≠ [] ∧
    (statusOf envEmptyW).openrouter_configured = false ∧
    (statusOf envEmptyW).openai_configured = false := by
  refine ⟨?_, fun env => rfl, by decide, rfl, rfl⟩
  intro e1 e2 h1 h2 h3 h4 h5 h6
  simp [get_translation_status, renderStatus, statusOf, get_env_config,
    h1, h2, h3, h4, h5, h6]

/-- C8 (witness). -/
theorem c8_witness :
    get_translation_status envKeyAW = get_translation_status envKeyBW :=
  c8_status_key_blind.1 envKeyAW envKeyBW rfl rfl rfl rfl (by decide) rfl

/-- C9: on every call that resolves its input and provider configuration, if
the engine oracle raises no exception before the job invocation, the effect
trace is exactly: engine init, translator construction, rate-limiter setting,
layout loading, `mkdir(parents=True, exist_ok=True)` on the output directory
in use, and then the engine invocation -- so the output directory is created
(with parents) before the engine is invoked; and when the `output_dir`
argument is absent or empty, the directory in use is the parent directory of
the resolved input file. -/
theorem c9_output_dir_before_invoke :
    ∀ (fs : FS) (nfc nfd : String → String) (env : Env) (eng : Engine)
      (arguments : Arguments) (p : String) (cfg : SvcConfig),
      validateInput fs nfc nfd arguments = Except.ok p →
      resolveService arguments env = Except.ok cfg →
      eng.initExc = none → eng.translatorExc = none →
      eng.layoutExc = none → eng.mkdirExc = none →
      (translate_pdf fs nfc nfd env eng arguments).trace =
        [Effect.engineInit,
         Effect.translatorCtor (resolvedOptions arguments).lang_in
           (resolvedOptions arguments).lang_out cfg.model cfg.base_url cfg.api_key,
         Effect.setRateLimiter (resolvedOptions arguments).qps,
         Effect.loadLayout,
         Effect.mkdirP (resolvedOutputDir arguments p),
         Effect.engineInvoke (pathStr p) (resolvedOptions arguments).pages
           (resolvedOutputDir arguments p) (resolvedOptions arguments).no_dual
           (resolvedOptions arguments).no_mono (resolvedOptions arguments).qps
           (resolvedOptions arguments).watermark] ∧
      ((arguments.output_dir = none ∨ arguments.output_dir = some "") →
        resolvedOutputDir arguments p = pathParent p) := by
  intro fs nfc nfd env eng arguments p cfg hv hs h1 h2 h3 h4
  constructor
  · rw [translate_pdf_reaches_engine fs nfc nfd env eng arguments p cfg hv hs]
    exact runEngine_trace_invoked _ _ _ _ _ h1 h2 h3 h4
  · intro hd
    rcases hd with hd | hd <;> simp [resolvedOutputDir, orFalsy, hd]

/-- C9 (witness). -/
theorem c9_witness :
    (translate_pdf fsW id id envW engW argsW).trace =
      [Effect.engineInit,
       Effect.translatorCtor (resolvedOptions argsW).lang_in
         (resolvedOptions argsW).lang_out svcW.model svcW.base_url svcW.api_key,
       Effect.setRateLimiter (resolvedOptions argsW).qps,
       Effect.loadLayout,
       Effect.mkdirP (resolvedOutputDir argsW "/w/in.pdf"),
       Effect.engineInvoke (pathStr "/w/in.pdf") (resolvedOptions argsW).pages
         (resolvedOutputDir argsW "/w/in.pdf") (resolvedOptions argsW).no_dual
         (resolvedOptions argsW).no_mono (resolvedOptions argsW).qps
         (resolvedOptions argsW).watermark] ∧
    ((argsW.output_dir = none ∨ argsW.output_dir = some "") →
      resolvedOutputDir argsW "/w/in.pdf" = pathParent "/w/in.pdf") :=
  c9_output_dir_before_invoke fsW id id envW engW argsW "/w/in.pdf" svcW
    (by rfl) (by rfl) rfl rfl rfl rfl

/-- C10: the PDF file-type check is case-insensitive on the extension: when
the input resolves to a path whose suffix lowercases to `.pdf` the call
passes validation with that path, and when it does not, the call returns the
`Error: File must be a PDF` result without any engine effect. -/
theorem c10_pdf_check_case_insensitive :
    ∀ (fs : FS) (nfc nfd : String → String) (env : Env) (eng : Engine)
      (arguments : Arguments) (f p : String),
      arguments.input_file = some f → f ≠ "" →
      resolve_path_with_unicode_normalization fs nfc nfd f = some p →
      ((pyLower (pathSuffix p) = ".pdf" →
          validateInput fs nfc nfd arguments = Except.ok p) ∧
       (pyLower (pathSuffix p) ≠ ".pdf" →
          translate_pdf fs nfc nfd env eng arguments =
            ⟨"Error: File must be a PDF", []⟩)) := by
  intro fs nfc nfd env eng arguments f p hif hf hr
  constructor
  · intro hs
    unfold validateInput
    rw [hif]
    dsimp only
    rw [if_neg hf, hr]
    dsimp only
    rw [if_pos hs]
  · intro hs
    have hv : validateInput fs nfc nfd arguments =
        Except.error "Error: File must be a PDF" := by
      unfold validateInput
      rw [hif]
      dsimp only
      rw [if_neg hf, hr]
      dsimp only
      rw [if_neg hs]
    refine translate_pdf_pre_error fs nfc nfd env eng arguments _ ?_
    simp [preEngineError, hv]

/-- C10 (witness). -/
theorem c10_witness :
    validateInput fsW id id argsUpW = Except.ok "/w/up.PDF" :=
  (c10_pdf_check_case_insensitive fsW id id envW engW argsUpW "/w/up.PDF" "/w/up.PDF"
    rfl (by decide) (by rfl)).1 (by rfl)
